import Mathlib

/-!
Verification development for the wimey command line parsing library
(src/wimey.c, src/wimey.h).  The definitions below are a shallow
embedding of the C code: linked lists become Lean lists, callback
invocations and destination writes become recorded events, NULL string
pointers become `none`, and the C status ints WIMEY_OK = 1 / WIMEY_ERR = 0
become the booleans true / false.  Display-only fields (value_name, desc)
and the diagnostic printing macros feed only the logging side channel and
are not modelled.
-/

/- ===================== Value converters ===================== -/

/-- Value of LONG_MAX on the LP64 targets the library builds for. -/
def LONG_MAX : Int := 9223372036854775807

/-- Value of LONG_MIN on the LP64 targets the library builds for. -/
def LONG_MIN : Int := -9223372036854775808

/-- Model of the C-locale isspace test used by strtol while skipping
leading whitespace (space, tab, newline, vertical tab, form feed,
carriage return). -/
def isSpaceC (c : Char) : Bool :=
  c.toNat == 32 || c.toNat == 9 || c.toNat == 10 ||
  c.toNat == 11 || c.toNat == 12 || c.toNat == 13

/-- Model of the decimal digit test used by strtol in base 10. -/
def isDigitC (c : Char) : Bool :=
  48 ≤ c.toNat && c.toNat ≤ 57

/-- Numeric value of a list of decimal digit characters, most
significant digit first. -/
def decDigitsVal (l : List Char) : Nat :=
  l.foldl (fun acc c => acc * 10 + (c.toNat - 48)) 0

/-- Model of strtol(val, &p_end, 10): skip leading whitespace, read an
optional sign, then a run of decimal digits.  Returns the parsed value,
the characters remaining at p_end, and the ERANGE flag.  When no digit is
consumed, p_end is reset to the start of the input and 0 is returned with
no error; on overflow the result saturates at LONG_MAX / LONG_MIN and
ERANGE is set. -/
def strtol10 (s : List Char) : Int × List Char × Bool :=
  let afterWs := s.dropWhile isSpaceC
  let hasSign : Bool := afterWs.headD ' ' == '-' || afterWs.headD ' ' == '+'
  let signNeg : Bool := afterWs.headD ' ' == '-'
  let afterSign := if hasSign then afterWs.tail else afterWs
  let digits := afterSign.takeWhile isDigitC
  let rest := afterSign.dropWhile isDigitC
  if digits.isEmpty then (0, s, false)
  else
    let v : Int :=
      if signNeg then -(decDigitsVal digits : Int) else (decDigitsVal digits : Int)
    if v > LONG_MAX then (LONG_MAX, rest, true)
    else if v < LONG_MIN then (LONG_MIN, rest, true)
    else (v, rest, false)

/-- Model of wimey_val_to_long.  The C function prints a diagnostic and
returns the sentinel WIMEY_ERR = 0 when the input pointer is NULL
(modelled as none), when strtol leaves unconsumed characters at p_end, or
when strtol reports ERANGE; otherwise it returns the parsed long.  The
result pair is (error_reported, returned value). -/
def wimey_val_to_long (val : Option String) : Bool × Int :=
  match val with
  | none => (true, 0)
  | some s =>
    let r := strtol10 s.data
    if r.2.2 || !r.2.1.isEmpty then (true, 0) else (false, r.1)

/-- Model of wimey_val_to_int: the result of wimey_val_to_long cast to a
32-bit int (two-complement wrap-around). -/
def wimey_val_to_int (val : Option String) : Bool × Int :=
  let r := wimey_val_to_long val
  (r.1, (r.2 + 2147483648) % 4294967296 - 2147483648)

/- ===================== Commands ===================== -/

/-- A registered command (struct wimey_command_t).  The callback function
pointer is not modelled directly: the scanner records each invocation as
an event pairing the command with the value passed to its callback. -/
structure WimeyCommand where
  key : String
  has_value : Bool
  is_value_required : Bool
deriving Repr, DecidableEq

/-- Model of __wimey_get_command_node: the first node of the commands
list whose key compares equal (strcmp) to the string. -/
def wimey_get_command_node (cmds : List WimeyCommand) (s : String) :
    Option WimeyCommand :=
  match cmds with
  | [] => none
  | c :: rest =>
    if s = c.key then some c else wimey_get_command_node rest s

/-- Model of __wimey_check_command. -/
def wimey_check_command (cmds : List WimeyCommand) (s : String) : Bool :=
  (wimey_get_command_node cmds s).isSome

/-- Model of __wimey_is_str_a_command: true when
strncmp(key, str, strlen(key)) == 0 for some registered command, i.e.
when the character sequence of some registered key is a literal prefix
of the string. -/
def wimey_is_str_a_command (cmds : List WimeyCommand) (s : String) : Bool :=
  cmds.any fun c => c.key.data.isPrefixOf s.data

/-- A recorded callback invocation: the command whose callback ran and
the value passed (none models a NULL value pointer). -/
abbrev CmdEvent := WimeyCommand × Option String

/-- Model of __wimey_process_command: with has_value set the callback
receives the given value pointer, otherwise it receives NULL. -/
def wimey_process_command (c : WimeyCommand) (value : Option String) : CmdEvent :=
  if c.has_value then (c, value) else (c, none)

/-- Loop body of __wimey_parse_commands, acting on the suffix of argv
that starts at the current index arg_i (the C loop reads only
argv[arg_i], argv[arg_i + 1] and compares indices against argc, so the
suffix determines each step: overflow = arg_i + 1 >= argc holds exactly
when the suffix has no second element).  Returns the callback invocations
in order together with the status flag (true = WIMEY_OK); on the goto err
path the events produced by earlier iterations are kept, since executed
callbacks are not rolled back. -/
def wimey_parse_commands_loop (cmds : List WimeyCommand) :
    List String → List CmdEvent × Bool
  | [] => ([], true)
  | t :: rest =>
    match wimey_get_command_node cmds t with
    | none => wimey_parse_commands_loop cmds rest
    | some node =>
      let overflow : Bool := rest.isEmpty
      if node.is_value_required && overflow then
        ([], false)
      else if node.has_value && !overflow then
        -- inner copy of the two checks, as in the C source (lines 298-313)
        if node.is_value_required && overflow then
          ([], false)
        else if node.has_value && !overflow &&
            !(wimey_is_str_a_command cmds (rest.headD "")) then
          -- consume argv[arg_i + 1] as the value, arg_i++ then continue
          let ev := wimey_process_command node (some (rest.headD ""))
          let r := wimey_parse_commands_loop cmds rest.tail
          (ev :: r.1, r.2)
        else
          -- next token is itself a command: callback with NULL, continue
          let ev := wimey_process_command node none
          let r := wimey_parse_commands_loop cmds rest
          (ev :: r.1, r.2)
      else
        -- has_value false (or no next token without a required value):
        -- the C loop body ends here without invoking the callback
        wimey_parse_commands_loop cmds rest
termination_by l => l.length
decreasing_by
  all_goals simp [List.length_tail]
  all_goals omega

/-- Model of __wimey_parse_commands: WIMEY_OK when no command is
registered, error when argc < 2 while commands exist, otherwise the scan
loop over the whole of argv starting at index 0. -/
def wimey_parse_commands (cmds : List WimeyCommand) (argv : List String) :
    List CmdEvent × Bool :=
  if cmds.isEmpty then ([], true)
  else if argv.length < 2 then ([], false)
  else wimey_parse_commands_loop cmds argv

/- ===================== Arguments ===================== -/

/-- The value_type enumeration of wimey.c (WIMEY_LONG, WIMEY_DOUBLE,
WIMEY_STR, WIMEY_BOOL). -/
inductive WimeyType where
  | wLong | wDouble | wStr | wBool
deriving Repr, DecidableEq

/-- A registered argument (struct wimey_argument_t).  value_dest is an
identifier standing for the caller-owned destination the C void pointer
points at; writes through it are recorded as events. -/
structure WimeyArgument where
  long_key : String
  short_key : String
  has_value : Bool
  is_value_required : Bool
  value_dest : Nat
  value_type : WimeyType
deriving Repr, DecidableEq

/-- Model of the normalization performed by wimey_add_argument before the
descriptor is appended to the list: an argument with no value or with a
non-required value is forced to a required boolean flag.  The append to
the registry itself is modelled by the caller building the list. -/
def wimey_add_argument (a : WimeyArgument) : WimeyArgument :=
  if !a.is_value_required || !a.has_value then
    { a with value_type := WimeyType.wBool, is_value_required := true,
             has_value := true }
  else a

/-- Model of __wimey_get_argument_node: the first node of the arguments
list whose long key or short key compares equal to the string. -/
def wimey_get_argument_node (args : List WimeyArgument) (s : String) :
    Option WimeyArgument :=
  match args with
  | [] => none
  | a :: rest =>
    if s = a.long_key || s = a.short_key then some a
    else wimey_get_argument_node rest s

/-- A write into a caller destination performed by the argument scanner.
The double case keeps the raw token because floating-point conversion is
outside the model; the boolean case is the write *(int *)dest = true. -/
inductive WimeyWrite where
  | wLong (v : Int)
  | wDouble (raw : Option String)
  | wStr (s : String)
  | wBool
deriving Repr, DecidableEq

/-- Outcome of the argument scanner: normal completion with a status
flag, process termination through the --help path (exit(EXIT_SUCCESS)),
or undefined behaviour (strdup(NULL), reached when a string argument key
is the last token so that argv[arg_i + 1] is the NULL terminator of
argv).  Each outcome carries the destination writes performed before
it. -/
inductive ArgScanOutcome where
  | done (writes : List (Nat × WimeyWrite)) (ok : Bool)
  | helpExit (writes : List (Nat × WimeyWrite))
  | crash (writes : List (Nat × WimeyWrite))
deriving Repr, DecidableEq

/-- Prepend a destination write to the writes of an outcome. -/
def consWrite (w : Nat × WimeyWrite) : ArgScanOutcome → ArgScanOutcome
  | ArgScanOutcome.done ws ok => ArgScanOutcome.done (w :: ws) ok
  | ArgScanOutcome.helpExit ws => ArgScanOutcome.helpExit (w :: ws)
  | ArgScanOutcome.crash ws => ArgScanOutcome.crash (w :: ws)

/-- Loop body of __wimey_parse_arguments on the suffix of argv starting
at the current index arg_i.  The C overflow check is
arg_i + 1 > argc, which never holds inside the loop (arg_i < argc), i.e.
in suffix form the current suffix would need fewer than one element; it
is kept verbatim.  argv[arg_i + 1] is head? of the remaining tokens, with
none modelling the NULL pointer argv[argc] when the matched key is the
last token.  The loop never skips the consumed value token (arg_i is not
incremented an extra time), matching the C source. -/
def wimey_parse_arguments_loop (args : List WimeyArgument) :
    List String → ArgScanOutcome
  | [] => ArgScanOutcome.done [] true
  | t :: rest =>
    match wimey_get_argument_node args t with
    | none => wimey_parse_arguments_loop args rest
    | some node =>
      let overflow : Bool := decide ((t :: rest).length < 1)
      if node.is_value_required && !(node.value_type == WimeyType.wBool)
          && overflow then
        ArgScanOutcome.done [] false
      else if node.has_value && !overflow then
        if node.long_key == "--help" then ArgScanOutcome.helpExit []
        else
          let val : Option String := rest.head?
          match node.value_type with
          | WimeyType.wLong =>
            consWrite (node.value_dest, WimeyWrite.wLong (wimey_val_to_long val).2)
              (wimey_parse_arguments_loop args rest)
          | WimeyType.wDouble =>
            consWrite (node.value_dest, WimeyWrite.wDouble val)
              (wimey_parse_arguments_loop args rest)
          | WimeyType.wStr =>
            match val with
            | none => ArgScanOutcome.crash []
            | some s =>
              consWrite (node.value_dest, WimeyWrite.wStr s)
                (wimey_parse_arguments_loop args rest)
          | WimeyType.wBool =>
            consWrite (node.value_dest, WimeyWrite.wBool)
              (wimey_parse_arguments_loop args rest)
      else wimey_parse_arguments_loop args rest

/-- Model of __wimey_parse_arguments: WIMEY_OK when no argument is
registered, otherwise the scan loop over the whole of argv starting at
index 0. -/
def wimey_parse_arguments (args : List WimeyArgument) (argv : List String) :
    ArgScanOutcome :=
  if args.isEmpty then ArgScanOutcome.done [] true
  else wimey_parse_arguments_loop args argv

/- ===================== Parse coordinator ===================== -/

/-- Model of wimey_parse: run the command scanner, then the argument
scanner, and return cmds_status && args_status.  The returned status is
none when the argument scanner terminated the process (help path) or hit
undefined behaviour, because the C function never returns in those
cases; the command events of the first scanner are reported in every
case since its callbacks have already executed. -/
def wimey_parse (cmds : List WimeyCommand) (args : List WimeyArgument)
    (argv : List String) : List CmdEvent × ArgScanOutcome × Option Bool :=
  let c := wimey_parse_commands cmds argv
  let a := wimey_parse_arguments args argv
  match a with
  | ArgScanOutcome.done _ ok => (c.1, a, some (c.2 && ok))
  | _ => (c.1, a, none)

/- ===================== Helper lemmas ===================== -/

/-- A successful command lookup needs a non-empty registry. -/
lemma get_command_node_ne_nil {cmds : List WimeyCommand} {s : String}
    {c : WimeyCommand} (h : wimey_get_command_node cmds s = some c) :
    cmds.isEmpty = false := by
  cases cmds with
  | nil => simp [wimey_get_command_node] at h
  | cons _ _ => simp

/-- A successful argument lookup needs a non-empty registry. -/
lemma get_argument_node_ne_nil {args : List WimeyArgument} {s : String}
    {a : WimeyArgument} (h : wimey_get_argument_node args s = some a) :
    args.isEmpty = false := by
  cases args with
  | nil => simp [wimey_get_argument_node] at h
  | cons _ _ => simp

/-- The command lookup succeeds exactly on exact key equality with some
registered command. -/
lemma check_command_iff (cmds : List WimeyCommand) (s : String) :
    wimey_check_command cmds s = true ↔ ∃ c ∈ cmds, c.key = s := by
  induction cmds with
  | nil => simp [wimey_check_command, wimey_get_command_node]
  | cons c rest ih =>
    by_cases h : s = c.key
    · simp [wimey_check_command, wimey_get_command_node, h]
    · simp only [wimey_check_command, wimey_get_command_node, if_neg h] at *
      rw [ih]
      constructor
      · rintro ⟨x, hx, hk⟩
        exact ⟨x, List.mem_cons_of_mem _ hx, hk⟩
      · rintro ⟨x, hx, hk⟩
        rcases List.mem_cons.mp hx with rfl | hx'
        · exact absurd hk.symm h
        · exact ⟨x, hx', hk⟩

/- ===================== Claim theorems ===================== -/

/-- C1: the claim states that for every registered command C with
has_value = false, parse on [prog, C.key] invokes the callback of C
exactly once with no value.  The code invokes it zero times: every call
of __wimey_process_command in __wimey_parse_commands sits inside the
branch guarded by node->cmd.has_value && !overflow, so a command without
a value produces no callback invocation at all (the !has_value branch of
__wimey_process_command, which would pass NULL, is unreachable).  The
theorem evaluates the scan at the failing input: the event list is
empty. -/
theorem valueless_command_never_invokes_callback :
    wimey_parse_commands [⟨"version", false, false⟩] ["prog", "version"]
      = ([], true)
    ∧ wimey_parse_commands [⟨"version", false, false⟩]
        ["prog", "version", "extra"] = ([], true)
    ∧ (wimey_parse [⟨"version", false, false⟩] [] ["prog", "version"]).1 = [] := by
  refine ⟨?_, ?_, ?_⟩ <;>
    simp [wimey_parse, wimey_parse_commands, wimey_parse_commands_loop,
      wimey_get_command_node, wimey_parse_arguments]

/-- C2: the claim states that a registered non-boolean argument with a
required value whose key is the last token makes the argument scan
report a fatal error, parse return failure, and the destination stay
unwritten.  In the code the overflow test arg_i + 1 > argc is never true
inside the loop (arg_i < argc), so the error branch is dead: the scan
reads argv[argc] (the NULL terminator), the long conversion fails and
writes the sentinel 0 into the destination, and both the scan and parse
report success.  The theorem evaluates the code at the failing input. -/
theorem missing_argument_value_undetected :
    wimey_add_argument ⟨"--count", "-c", true, true, 0, WimeyType.wLong⟩
      = ⟨"--count", "-c", true, true, 0, WimeyType.wLong⟩
    ∧ wimey_parse_arguments [⟨"--count", "-c", true, true, 0, WimeyType.wLong⟩]
        ["prog", "--count"] = ArgScanOutcome.done [(0, WimeyWrite.wLong 0)] true
    ∧ (wimey_parse [] [⟨"--count", "-c", true, true, 0, WimeyType.wLong⟩]
        ["prog", "--count"]).2.2 = some true := by
  refine ⟨?_, ?_, ?_⟩ <;>
    simp [wimey_add_argument, wimey_parse, wimey_parse_commands,
      wimey_parse_arguments, wimey_parse_arguments_loop,
      wimey_get_argument_node, consWrite, wimey_val_to_long]

/-- C4: wimey_parse computes the command scan and the argument scan,
each over the full token vector and independently of the outcome of the
other, and its status is WIMEY_OK exactly when both scans returned
WIMEY_OK (cmds_parse && args_parse). -/
theorem parse_conjoins_both_scanners (cmds : List WimeyCommand)
    (args : List WimeyArgument) (argv : List String) :
    (wimey_parse cmds args argv).1 = (wimey_parse_commands cmds argv).1
    ∧ (wimey_parse cmds args argv).2.1 = wimey_parse_arguments args argv
    ∧ ((wimey_parse cmds args argv).2.2 = some true ↔
        ((wimey_parse_commands cmds argv).2 = true
          ∧ ∃ ws, wimey_parse_arguments args argv = ArgScanOutcome.done ws true)) := by
  cases h : wimey_parse_arguments args argv <;>
    simp [wimey_parse, h, Bool.and_eq_true]

/-- C10: with at least one registered command, parse on a token vector
of fewer than two entries fails: the command scanner reports the
argc < 2 error and returns WIMEY_ERR, so the conjunction at the top
level cannot be WIMEY_OK. -/
theorem short_argv_with_commands_fails (cmds : List WimeyCommand)
    (args : List WimeyArgument) (argv : List String)
    (hne : cmds ≠ []) (hlen : argv.length < 2) :
    wimey_parse_commands cmds argv = ([], false)
    ∧ (wimey_parse cmds args argv).2.2 ≠ some true := by
  have h1 : cmds.isEmpty = false := List.isEmpty_eq_false.mpr hne
  constructor
  · simp [wimey_parse_commands, h1, hlen]
  · cases h : wimey_parse_arguments args argv <;>
      simp [wimey_parse, wimey_parse_commands, h1, hlen, h]

/-- Witness for C10 at a concrete registry and token vector. -/
theorem short_argv_with_commands_fails_witness :
    wimey_parse_commands [⟨"add", false, false⟩] ["p"] = ([], false)
    ∧ (wimey_parse [⟨"add", false, false⟩] [] ["p"]).2.2 ≠ some true :=
  short_argv_with_commands_fails [⟨"add", false, false⟩] [] ["p"]
    (by simp) (by simp)

/-- C5: recognition of the token at the current index as a command uses
exact key equality (strcmp in __wimey_check_command), the lookahead test
on the next token uses prefix matching (strncmp over the key length in
__wimey_is_str_a_command), and when the lookahead classifies the next
token as a command the current command fires with no value and the scan
resumes at the very next index, re-examining that token. -/
theorem exact_recognition_loose_lookahead :
    (∀ (cmds : List WimeyCommand) (s : String),
      wimey_check_command cmds s = true ↔ ∃ c ∈ cmds, c.key = s)
    ∧ (∀ (cmds : List WimeyCommand) (s : String),
      wimey_is_str_a_command cmds s = true
        ↔ ∃ c ∈ cmds, c.key.data.isPrefixOf s.data = true)
    ∧ (∀ (cmds : List WimeyCommand) (node : WimeyCommand) (t w : String)
        (rest : List String),
      wimey_get_command_node cmds t = some node →
      node.has_value = true →
      wimey_is_str_a_command cmds w = true →
      wimey_parse_commands_loop cmds (t :: w :: rest)
        = ((node, none) :: (wimey_parse_commands_loop cmds (w :: rest)).1,
            (wimey_parse_commands_loop cmds (w :: rest)).2)) := by
  refine ⟨check_command_iff, ?_, ?_⟩
  · intro cmds s
    simp [wimey_is_str_a_command, List.any_eq_true]
  · intro cmds node t w rest hget hhv hw
    rw [wimey_parse_commands_loop]
    simp [hget, hhv, hw, wimey_process_command]

/-- Witness for C5: with the single registered command "run" taking a
value, the token "runx" after "run" is prefix-classified as a command,
so "run" fires with no value and the scan resumes at "runx". -/
theorem exact_recognition_loose_lookahead_witness :
    wimey_parse_commands_loop [⟨"run", true, true⟩] ["run", "runx"]
      = ((⟨"run", true, true⟩, none)
            :: (wimey_parse_commands_loop [⟨"run", true, true⟩] ["runx"]).1,
          (wimey_parse_commands_loop [⟨"run", true, true⟩] ["runx"]).2) :=
  exact_recognition_loose_lookahead.2.2 [⟨"run", true, true⟩]
    ⟨"run", true, true⟩ "run" "runx" []
    (by simp [wimey_get_command_node]) rfl (by decide)

/-- C6: a registered command with has_value and is_value_required set,
followed by a token no registered key is a prefix of, fires once with
that token as its value; the scan resumes two positions further on, so
the value token is consumed and never re-examined by the command
scanner. -/
theorem command_value_consumed_and_skipped
    (cmds : List WimeyCommand) (c : WimeyCommand) (prog ck v : String)
    (hprog : wimey_get_command_node cmds prog = none)
    (hck : wimey_get_command_node cmds ck = some c)
    (hhv : c.has_value = true) (hreq : c.is_value_required = true)
    (hv : wimey_is_str_a_command cmds v = false) :
    wimey_parse_commands cmds [prog, ck, v] = ([(c, some v)], true)
    ∧ ∀ rest : List String,
        wimey_parse_commands_loop cmds (ck :: v :: rest)
          = ((c, some v) :: (wimey_parse_commands_loop cmds rest).1,
              (wimey_parse_commands_loop cmds rest).2) := by
  have hstep : ∀ rest : List String,
      wimey_parse_commands_loop cmds (ck :: v :: rest)
        = ((c, some v) :: (wimey_parse_commands_loop cmds rest).1,
            (wimey_parse_commands_loop cmds rest).2) := by
    intro rest
    rw [wimey_parse_commands_loop]
    simp [hck, hhv, hv, wimey_process_command]
  refine ⟨?_, hstep⟩
  have hne : cmds.isEmpty = false := get_command_node_ne_nil hck
  rw [wimey_parse_commands, if_neg (by simp [hne]), if_neg (by simp)]
  rw [wimey_parse_commands_loop]
  simp only [hprog]
  rw [hstep []]
  rw [wimey_parse_commands_loop]

/-- Witness for C6 with the example registry command "hello". -/
theorem command_value_consumed_and_skipped_witness :
    wimey_parse_commands [⟨"hello", true, true⟩] ["prog", "hello", "bob"]
      = ([(⟨"hello", true, true⟩, some "bob")], true) :=
  (command_value_consumed_and_skipped [⟨"hello", true, true⟩]
    ⟨"hello", true, true⟩ "prog" "hello" "bob"
    (by simp [wimey_get_command_node]) (by simp [wimey_get_command_node])
    rfl rfl (by decide)).1

/-- C9: a registered command with has_value and is_value_required set
whose key is the last token makes the command scanner hit the
missing-value error: no callback runs, the scan returns WIMEY_ERR and
parse cannot report success. -/
theorem required_command_value_missing_fails
    (cmds : List WimeyCommand) (args : List WimeyArgument) (c : WimeyCommand)
    (prog ck : String)
    (hprog : wimey_get_command_node cmds prog = none)
    (hck : wimey_get_command_node cmds ck = some c)
    (hhv : c.has_value = true) (hreq : c.is_value_required = true) :
    wimey_parse_commands cmds [prog, ck] = ([], false)
    ∧ (wimey_parse cmds args [prog, ck]).1 = []
    ∧ (wimey_parse cmds args [prog, ck]).2.2 ≠ some true := by
  have hne : cmds.isEmpty = false := get_command_node_ne_nil hck
  have hcmd : wimey_parse_commands cmds [prog, ck] = ([], false) := by
    rw [wimey_parse_commands, if_neg (by simp [hne]), if_neg (by simp)]
    rw [wimey_parse_commands_loop]
    simp only [hprog]
    rw [wimey_parse_commands_loop]
    simp [hck, hreq]
  refine ⟨hcmd, ?_, ?_⟩ <;>
    cases h : wimey_parse_arguments args [prog, ck] <;>
      simp [wimey_parse, hcmd, h]

/-- Witness for C9 with the example registry command "hello". -/
theorem required_command_value_missing_fails_witness :
    wimey_parse_commands [⟨"hello", true, true⟩] ["prog", "hello"] = ([], false)
    ∧ (wimey_parse [⟨"hello", true, true⟩] [] ["prog", "hello"]).1 = []
    ∧ (wimey_parse [⟨"hello", true, true⟩] [] ["prog", "hello"]).2.2
        ≠ some true :=
  required_command_value_missing_fails [⟨"hello", true, true⟩] []
    ⟨"hello", true, true⟩ "prog" "hello"
    (by simp [wimey_get_command_node]) (by simp [wimey_get_command_node])
    rfl rfl

/-- C8: registration forces an argument with has_value = false or
is_value_required = false to a required boolean flag, and a registered
boolean flag matched during the scan gets its destination set to true
without the following token being consumed as a value (the token after
the flag is scanned again in the next iteration, as the repeated-flag
clause shows). -/
theorem argument_normalization_bool_flag :
    (∀ a : WimeyArgument,
      a.is_value_required = false ∨ a.has_value = false →
      wimey_add_argument a
        = ⟨a.long_key, a.short_key, true, true, a.value_dest, WimeyType.wBool⟩)
    ∧ (∀ (args : List WimeyArgument) (a : WimeyArgument) (prog k : String),
        wimey_get_argument_node args prog = none →
        wimey_get_argument_node args k = some a →
        a.value_type = WimeyType.wBool →
        a.has_value = true →
        ¬ (a.long_key = "--help") →
        wimey_parse_arguments args [prog, k]
            = ArgScanOutcome.done [(a.value_dest, WimeyWrite.wBool)] true
          ∧ (wimey_parse [] args [prog, k]).2.2 = some true
          ∧ wimey_parse_arguments args [prog, k, k]
            = ArgScanOutcome.done
                [(a.value_dest, WimeyWrite.wBool),
                 (a.value_dest, WimeyWrite.wBool)] true) := by
  constructor
  · intro a h
    rcases h with h | h <;> simp [wimey_add_argument, h]
  · intro args a prog k hprog hk htype hhv hhelp
    have hne : args.isEmpty = false := get_argument_node_ne_nil hk
    have hhelp' : (a.long_key == "--help") = false :=
      beq_eq_false_iff_ne.mpr hhelp
    have h1 : wimey_parse_arguments_loop args [k]
        = ArgScanOutcome.done [(a.value_dest, WimeyWrite.wBool)] true := by
      rw [wimey_parse_arguments_loop]
      simp [hk, htype, hhv, hhelp', consWrite, wimey_parse_arguments_loop]
    have h2 : wimey_parse_arguments_loop args [k, k]
        = ArgScanOutcome.done
            [(a.value_dest, WimeyWrite.wBool),
             (a.value_dest, WimeyWrite.wBool)] true := by
      rw [wimey_parse_arguments_loop]
      simp [hk, htype, hhv, hhelp', consWrite, h1]
    have hscan : wimey_parse_arguments args [prog, k]
        = ArgScanOutcome.done [(a.value_dest, WimeyWrite.wBool)] true := by
      rw [wimey_parse_arguments, if_neg (by simp [hne])]
      rw [wimey_parse_arguments_loop]
      simp [hprog, h1]
    refine ⟨hscan, ?_, ?_⟩
    · simp [wimey_parse, hscan, wimey_parse_commands]
    · rw [wimey_parse_arguments, if_neg (by simp [hne])]
      rw [wimey_parse_arguments_loop]
      simp [hprog, h2]

/-- Witness for C8: registering --version as a value-less argument and
scanning [prog, --version] sets its boolean destination. -/
theorem argument_normalization_bool_flag_witness :
    wimey_add_argument ⟨"--version", "-v", false, false, 0, WimeyType.wStr⟩
      = ⟨"--version", "-v", true, true, 0, WimeyType.wBool⟩
    ∧ wimey_parse_arguments [⟨"--version", "-v", true, true, 0, WimeyType.wBool⟩]
        ["prog", "--version"]
      = ArgScanOutcome.done [(0, WimeyWrite.wBool)] true :=
  ⟨argument_normalization_bool_flag.1
      ⟨"--version", "-v", false, false, 0, WimeyType.wStr⟩ (Or.inl rfl),
   (argument_normalization_bool_flag.2
      [⟨"--version", "-v", true, true, 0, WimeyType.wBool⟩]
      ⟨"--version", "-v", true, true, 0, WimeyType.wBool⟩ "prog" "--version"
      (by simp [wimey_get_argument_node]) (by simp [wimey_get_argument_node])
      rfl rfl (by simp)).1⟩

/-- C3, counterexample: the claim states that neither scanner ever
matches the token at index 0.  Both loops in the code start at index 0:
with the single registered command "run" and argv = ["run", "x"], the
token at index 0 is recognized and the callback fires with value "x";
with the single registered (normalized) argument --verbose and
argv = ["--verbose"], the token at index 0 sets the destination. -/
theorem index_zero_matched_cx :
    (wimey_parse_commands [⟨"run", true, false⟩] ["run", "x"]).1
      = [(⟨"run", true, false⟩, some "x")]
    ∧ wimey_parse_arguments
        [wimey_add_argument ⟨"--verbose", "-v", false, false, 0, WimeyType.wStr⟩]
        ["--verbose"]
      = ArgScanOutcome.done [(0, WimeyWrite.wBool)] true := by
  constructor
  · have hx : wimey_is_str_a_command [⟨"run", true, false⟩] "x" = false := by
      decide
    simp [wimey_parse_commands, wimey_parse_commands_loop,
      wimey_get_command_node, hx, wimey_process_command]
  · simp [wimey_add_argument, wimey_parse_arguments, wimey_parse_arguments_loop,
      wimey_get_argument_node, consWrite]

/-- C3, amended: command and argument scanning both start at index 0 of
the token list, so the token at index 0 is matched (as a command key or
as an argument key) whenever it equals a registered key; from index 1 on
the scan proceeds as the claim describes. -/
theorem scanning_starts_at_index_zero
    (cmds : List WimeyCommand) (c : WimeyCommand) (k v : String)
    (args : List WimeyArgument) (a : WimeyArgument) (ak : String)
    (hk : wimey_get_command_node cmds k = some c)
    (hhv : c.has_value = true)
    (hv : wimey_is_str_a_command cmds v = false)
    (hak : wimey_get_argument_node args ak = some a)
    (hat : a.value_type = WimeyType.wBool)
    (hah : a.has_value = true)
    (hhelp : ¬ (a.long_key = "--help")) :
    wimey_parse_commands cmds [k, v] = ([(c, some v)], true)
    ∧ wimey_parse_arguments args [ak]
        = ArgScanOutcome.done [(a.value_dest, WimeyWrite.wBool)] true := by
  constructor
  · have hne : cmds.isEmpty = false := get_command_node_ne_nil hk
    rw [wimey_parse_commands, if_neg (by simp [hne]), if_neg (by simp)]
    rw [wimey_parse_commands_loop]
    simp [hk, hhv, hv, wimey_process_command, wimey_parse_commands_loop]
  · have hne : args.isEmpty = false := get_argument_node_ne_nil hak
    have hhelp' : (a.long_key == "--help") = false :=
      beq_eq_false_iff_ne.mpr hhelp
    rw [wimey_parse_arguments, if_neg (by simp [hne])]
    rw [wimey_parse_arguments_loop]
    simp [hak, hat, hah, hhelp', consWrite, wimey_parse_arguments_loop]

/-- Witness for the amended C3 at concrete registries. -/
theorem scanning_starts_at_index_zero_witness :
    wimey_parse_commands [⟨"go", true, false⟩] ["go", "z"]
      = ([(⟨"go", true, false⟩, some "z")], true)
    ∧ wimey_parse_arguments [⟨"--flag", "-f", true, true, 3, WimeyType.wBool⟩]
        ["-f"]
      = ArgScanOutcome.done [(3, WimeyWrite.wBool)] true :=
  scanning_starts_at_index_zero [⟨"go", true, false⟩] ⟨"go", true, false⟩
    "go" "z" [⟨"--flag", "-f", true, true, 3, WimeyType.wBool⟩]
    ⟨"--flag", "-f", true, true, 3, WimeyType.wBool⟩ "-f"
    (by simp [wimey_get_command_node]) rfl (by decide)
    (by simp [wimey_get_argument_node]) rfl rfl (by simp)

/-- A decimal digit is not whitespace. -/
lemma isDigitC_not_space (c : Char) (h : isDigitC c = true) :
    isSpaceC c = false := by
  have h1 : 48 ≤ c.toNat ∧ c.toNat ≤ 57 := by simpa [isDigitC] using h
  simp [isSpaceC]
  omega

/-- A decimal digit is not the minus sign. -/
lemma isDigitC_ne_minus (c : Char) (h : isDigitC c = true) :
    (c == '-') = false :=
  beq_eq_false_iff_ne.mpr (fun e => by subst e; exact absurd h (by decide))

/-- A decimal digit is not the plus sign. -/
lemma isDigitC_ne_plus (c : Char) (h : isDigitC c = true) :
    (c == '+') = false :=
  beq_eq_false_iff_ne.mpr (fun e => by subst e; exact absurd h (by decide))

/-- strtol on a non-empty all-digit input within range consumes the whole
input and returns its decimal value with no error. -/
lemma strtol10_all_digits (l : List Char) (hne : l ≠ [])
    (hdig : ∀ ch ∈ l, isDigitC ch = true)
    (hrange : (decDigitsVal l : Int) ≤ LONG_MAX) :
    strtol10 l = ((decDigitsVal l : Int), [], false) := by
  obtain ⟨ch, l', rfl⟩ := List.exists_cons_of_ne_nil hne
  have hch : isDigitC ch = true := hdig ch (by simp)
  have hsp : isSpaceC ch = false := isDigitC_not_space ch hch
  have hm : (ch == '-') = false := isDigitC_ne_minus ch hch
  have hp : (ch == '+') = false := isDigitC_ne_plus ch hch
  have htake : (ch :: l').takeWhile isDigitC = ch :: l' :=
    List.takeWhile_eq_self_iff.mpr hdig
  have hdrop : (ch :: l').dropWhile isDigitC = [] :=
    List.dropWhile_eq_nil_iff.mpr hdig
  have hgt : ¬ ((decDigitsVal (ch :: l') : Int) > LONG_MAX) :=
    not_lt.mpr hrange
  have hlt : ¬ ((decDigitsVal (ch :: l') : Int) < LONG_MIN) := by
    have hnn : (0 : Int) ≤ (decDigitsVal (ch :: l') : Int) :=
      Int.natCast_nonneg _
    simp only [LONG_MIN]
    omega
  simp only [strtol10, List.dropWhile_cons, hsp]
  simp [hm, hp, htake, hdrop, hgt, hlt]

/-- C7, counterexample: the claim states that the integer converter
fails, reporting a conversion error, when the input is empty.  On the
empty string strtol consumes nothing and leaves p_end at the terminator,
so wimey_val_to_long takes its success path and returns 0 without
reporting anything: the error flag is false, refuting the claim at the
input "". -/
theorem val_to_long_empty_not_an_error :
    wimey_val_to_long (some "") = (false, 0) := by decide

/-- C7, amended: wimey_val_to_long returns the parsed base-10 value with
no error for a fully numeric input in range, and fails (reporting a
conversion error and returning the sentinel 0) when the input is absent,
contains trailing non-numeric characters (including wholly non-numeric
non-empty input), or overflows the long range; an empty input is not
reported as a failure but yields 0 through the success path. -/
theorem val_to_long_characterization :
    (∀ s : String, s.data ≠ [] → (∀ ch ∈ s.data, isDigitC ch = true) →
      (decDigitsVal s.data : Int) ≤ LONG_MAX →
      wimey_val_to_long (some s) = (false, (decDigitsVal s.data : Int)))
    ∧ wimey_val_to_long none = (true, 0)
    ∧ wimey_val_to_long (some "abc") = (true, 0)
    ∧ wimey_val_to_long (some "42x") = (true, 0)
    ∧ wimey_val_to_long (some "999999999999999999999") = (true, 0)
    ∧ wimey_val_to_long (some "42") = (false, 42)
    ∧ wimey_val_to_long (some "") = (false, 0)
    ∧ wimey_val_to_int (some "42") = (false, 42) := by
  refine ⟨?_, by decide, by decide, by decide, by decide, by decide,
    by decide, by decide⟩
  intro s hne hdig hrange
  have h := strtol10_all_digits s.data hne hdig hrange
  simp [wimey_val_to_long, h]

/-- Witness for the amended C7 on the all-digit input "7". -/
theorem val_to_long_characterization_witness :
    wimey_val_to_long (some "7") = (false, 7) := by
  have h := val_to_long_characterization.1 "7" (by decide) (by decide)
    (by decide)
  exact h.trans (by decide)
